import Mathlib

/-!
# Verification of the IPL stats chatbot core pipeline

Shallow embedding of the two chatbot classes of this repository:
`IPLStatsPostgresChatbot` (src/ipl_chatbot_postgres.py) and
`IPLStatsEnhancedChatbot` (src/ipl_chatbot_enhanced.py).

The external collaborators (the Groq LLM client and the PostgreSQL engine)
are modelled as oracles: arbitrary functions from the request string to
either a normal reply or a raised exception (`Except.error`).  Python
`None` is modelled by `Option.none`, a pandas `DataFrame` by a list of
column names together with a list of rows, and each cell by an inductive
`Value` type (SQL results are ints, numerics, strings, booleans or NULL;
`Value.float` carries a rational, which is exact on every value appearing
in the claims).  Python string operations (`strip`, `rstrip(';')`,
`split`, `in`, `lower`, format specs `:,`, `:.1f`, `:.2f`, `:2d`) are
re-implemented on Lean strings with Python's semantics.
-/

/-! ## Python string primitives -/

/-- Python `str.isspace` characters relevant to `str.strip()` (ASCII set). -/
def isPySpace (c : Char) : Bool :=
  c = ' ' || c = '\t' || c = '\n' || c = '\x0d' || c = '\x0b' || c = '\x0c'

/-- Python `str.strip()` on a character list: drop leading and trailing whitespace. -/
def stripL (l : List Char) : List Char :=
  ((l.dropWhile isPySpace).reverse.dropWhile isPySpace).reverse

/-- Python `str.strip()`. -/
def pyStrip (s : String) : String := String.mk (stripL s.toList)

/-- Python `str.rstrip(';')` on a character list: drop trailing `';'` characters. -/
def rstripSemiL (l : List Char) : List Char :=
  (l.reverse.dropWhile (fun c => c = ';')).reverse

/-- Python `str.rstrip(';')`. -/
def pyRstripSemis (s : String) : String := String.mk (rstripSemiL s.toList)

/-- Bool-valued "needle occurs as a contiguous sublist of haystack". -/
def occursIn (needle : List Char) : List Char → Bool
  | [] => needle.isEmpty
  | c :: cs => needle.isPrefixOf (c :: cs) || occursIn needle cs

/-- Python `needle in haystack` (substring containment). -/
def containsSub (haystack needle : String) : Bool :=
  occursIn needle.toList haystack.toList

/-- Python `any(word in s for word in words)`. -/
def containsAny (s : String) (words : List String) : Bool :=
  words.any (fun w => containsSub s w)

/-- Python `str.lower()` (ASCII lowering, as in all questions considered). -/
def pyLower (s : String) : String := String.mk (s.toList.map Char.toLower)

/-- Fuel-driven worker for Python `str.split(sep)` (non-overlapping,
left-to-right, `sep` nonempty).  The fuel is an upper bound on the number
of characters still to scan; with fuel `≥ s.length` the out-of-fuel branch
is unreachable. -/
def pySplitAux (sep : List Char) : Nat → List Char → List Char → List (List Char)
  | _, [], acc => [acc.reverse]
  | 0, s, acc => [acc.reverse ++ s]
  | fuel + 1, c :: cs, acc =>
    if sep.isPrefixOf (c :: cs) && !sep.isEmpty then
      acc.reverse :: pySplitAux sep fuel (List.drop sep.length (c :: cs)) []
    else
      pySplitAux sep fuel cs (c :: acc)

/-- Python `s.split(sep)` for a nonempty separator. -/
def pySplit (sep s : String) : List String :=
  (pySplitAux sep.toList s.toList.length s.toList []).map String.mk

/-- Python `f"{i:2d}"`: right-justify in a field of width 2. -/
def pad2 (i : Nat) : String :=
  if i < 10 then " " ++ toString i else toString i

/-! ## Values and data frames -/

/-- A cell of a SQL result set as materialized by pandas.  `float` carries a
rational (exact for every value appearing in the claims); `null` models
SQL NULL / missing data. -/
inductive Value where
  | int (i : Int)
  | float (q : ℚ)
  | str (s : String)
  | bool (b : Bool)
  | null
deriving DecidableEq

/-- A pandas `DataFrame`: ordered column names and rows of cells, each row
aligned with `cols`. -/
structure DataFrame where
  cols : List String
  rows : List (List Value)
deriving DecidableEq

/-- Pandas `col in df.columns`. -/
def DataFrame.hasCol (df : DataFrame) (c : String) : Bool :=
  df.cols.contains c

/-- Pandas `row.get(c)` on a row Series (pandas `Series.get`: `none` if absent). -/
def DataFrame.rowGet (df : DataFrame) (row : List Value) (c : String) : Option Value :=
  (df.cols.indexOf? c).bind row.get?

/-- Pandas `row[c]` on a row Series: raises `KeyError` if the label is absent. -/
def DataFrame.rowItem (df : DataFrame) (row : List Value) (c : String) :
    Except String Value :=
  match df.rowGet row c with
  | some v => .ok v
  | none => .error ("KeyError: " ++ c)

/-- Pandas `pd.notna(v)`. -/
def Value.notna (v : Value) : Bool := v != Value.null

/-! ## Python format specs -/

/-- Insert thousands separators into a digit string (`"1250"` to `"1,250"`). -/
def commaGroupDigits (s : List Char) : List Char :=
  let rec go : List Char → List Char
    | a :: b :: c :: d :: rest => a :: b :: c :: ',' :: go (d :: rest)
    | l => l
  (go s.reverse).reverse

/-- Python `f"{n:,}"` for an integer. -/
def commaInt (n : Int) : String :=
  (if n < 0 then "-" else "") ++ String.mk (commaGroupDigits (toString n.natAbs).toList)

/-- The value `|q| * 10^d` rounded half away from zero, as a natural number (the
rounding helper behind Python's fixed-point format; ties never arise in
the claims). -/
def scaledAbs (d : Nat) (q : ℚ) : Nat :=
  (2 * q.num.natAbs * 10 ^ d + q.den) / (2 * q.den)

/-- Fixed-point rendering of a rational with `d` decimal digits
(`f"{q:.df}"`). -/
def fixedOfRat (d : Nat) (q : ℚ) : String :=
  let n := scaledAbs d q
  let ip := n / 10 ^ d
  let fp := n % 10 ^ d
  let fpStr := toString fp
  let pad := String.mk (List.replicate (d - fpStr.length) '0')
  (if q.num < 0 && n ≠ 0 then "-" else "") ++ toString ip ++
    (if d = 0 then "" else "." ++ pad ++ fpStr)

/-- Like `fixedOfRat 0` but with thousands separators: `f"{q:,.0f}"`. -/
def commaFixed0 (q : ℚ) : String :=
  (if q.num < 0 && scaledAbs 0 q ≠ 0 then "-" else "") ++
    String.mk (commaGroupDigits (toString (scaledAbs 0 q)).toList)

/-- Python `str()` of a float value, modelled on rationals: exact decimal
expansion when one of at most 30 digits exists, else `num/den`.  (`q.den`
divides `10^k` exactly when `q * 10^k` is an integer.) -/
def ratStr (q : ℚ) : String :=
  match (List.range 31).find? (fun k => (10 : Nat) ^ k % q.den = 0) with
  | some 0 => toString q.num ++ ".0"
  | some k => fixedOfRat k q
  | none => toString q.num ++ "/" ++ toString q.den

/-- Python `str(v)` / plain `{v}` in an f-string. -/
def pyStr (v : Value) : String :=
  match v with
  | .int i => toString i
  | .float q => ratStr q
  | .str s => s
  | .bool b => if b then "True" else "False"
  | .null => "None"

/-- Python `f"{v:,}"`: thousands separator.  Raises `ValueError` on a
string, and a `TypeError`-like failure on NULL/None. -/
def fmtComma (v : Value) : Except String String :=
  match v with
  | .int i => .ok (commaInt i)
  | .float q =>
    .ok ((if q.num < 0 then "-" else "") ++
      String.mk (commaGroupDigits (toString (q.num.natAbs / q.den)).toList) ++
      String.mk ((ratStr q).toList.dropWhile (fun c => c != '.')))
  | .bool b => .ok (if b then "1" else "0")
  | .str _ => .error "Cannot specify ',' with 's'."
  | .null => .error "unsupported format string passed to NoneType.__format__"

/-- Python `f"{v:.df}"` (fixed-point with `d` decimals). -/
def fmtFixed (d : Nat) (v : Value) : Except String String :=
  match v with
  | .int i => .ok (fixedOfRat d (mkRat i 1))
  | .float q => .ok (fixedOfRat d q)
  | .bool b => .ok (fixedOfRat d (mkRat (if b then 1 else 0) 1))
  | .str _ => .error "Unknown format code 'f' for object of type 'str'"
  | .null => .error "unsupported format string passed to NoneType.__format__"

/-- Python `v > 0` (raises `TypeError` on a string or None).  For a
rational, `0 < q` is `0 < q.num`. -/
def valGtZero (v : Value) : Except String Bool :=
  match v with
  | .int i => .ok (decide (0 < i))
  | .float q => .ok (decide (0 < q.num))
  | .bool b => .ok b
  | .str _ => .error "'>' not supported between instances of 'str' and 'int'"
  | .null => .error "'>' not supported between instances of 'NoneType' and 'int'"

/-! ## LLM reply cleanup

Lines 150-161 of src/ipl_chatbot_postgres.py and lines 204-215 of
src/ipl_chatbot_enhanced.py are textually identical:

    query_code = response.choices[0].message.content.strip()
    if "```sql" in query_code:
        query_code = query_code.split("```sql")[1].split("```")[0].strip()
    elif "```" in query_code:
        query_code = query_code.split("```")[1].strip()
    query_code = query_code.rstrip(';').strip()

Python raises `IndexError` on `[1]` only if the separator is absent, which
the guarding `in` checks rule out; `List.getD` with default `""` is
therefore only ever read at an existing index. -/

/-- The reply cleanup shared by both chatbots. -/
def cleanLLMReply (content : String) : String :=
  let q0 := pyStrip content
  let q1 :=
    if containsSub q0 "```sql" then
      pyStrip ((pySplit "```" ((pySplit "```sql" q0).getD 1 "")).getD 0 "")
    else if containsSub q0 "```" then
      pyStrip ((pySplit "```" q0).getD 1 "")
    else q0
  pyStrip (pyRstripSemis q1)

/-! ## Oracles for the two external collaborators

The prompt built by `_get_query_from_llm` is a fixed text block followed by
the user question and a fixed suffix, so it determines and is determined by
the question; the LLM oracle is modelled as a function of the question.
`Except.error e` models the call raising an exception with message `e`. -/

/-- The environment: the hosted LLM and the database engine. -/
structure Oracle where
  llm : String → Except String String
  db : String → Except String DataFrame

/-- Method `_get_query_from_llm`: the whole body is inside `try/except`, returning
`None` on any exception, else the cleaned reply. -/
def getQueryFromLLM (O : Oracle) (question : String) : Option String :=
  match O.llm question with
  | .error _ => none
  | .ok content => some (cleanLLMReply content)

/-- Method `_execute_query`: the whole body is inside `try/except`, returning
`None` on any exception, else the materialized `DataFrame`. -/
def execQuery (O : Oracle) (sql : String) : Option DataFrame :=
  match O.db sql with
  | .error _ => none
  | .ok df => some df

/-! ## Result formatters

`_format_dataframe` (src/ipl_chatbot_postgres.py lines 205-272) and
`_format_enhanced_dataframe` (src/ipl_chatbot_enhanced.py lines 253-319).
Operations that can raise inside the `try` bodies (row indexing, format
specs on non-numeric values, `> 0` comparisons on non-numeric values,
`.iloc[0]` on an empty row) run in `Except String`; each function's own
`except` clause converts the error into the diagnostic string. -/

/-- A column whose cells are all numeric (pandas numeric dtype). -/
def isNumericCol (df : DataFrame) (c : String) : Bool :=
  df.rows.all (fun r =>
    match df.rowGet r c with
    | some (.int _) => true
    | some (.float _) => true
    | some .null => true
    | _ => false)

/-- Expression `row.get('batter', row.get('bowler', str(row.iloc[0])))`: Python
evaluates the default `str(row.iloc[0])` eagerly, so it raises on a row
with no cells even when a batter column exists. -/
def playerName (df : DataFrame) (row : List Value) : Except String String := do
  let iloc0 ←
    match row.get? 0 with
    | some v => Except.ok (pyStr v)
    | none => Except.error "single positional indexer is out-of-bounds"
  pure <|
    match df.rowGet row "batter" with
    | some v => pyStr v
    | none =>
      match df.rowGet row "bowler" with
      | some v => pyStr v
      | none => iloc0

/-- One row of the baseline formatter (body of the loop at lines 220-264
of src/ipl_chatbot_postgres.py). -/
def formatRowP (df : DataFrame) (metricName : String) (i : Nat) (row : List Value) :
    Except String String := do
  let medal := if i = 1 then "🥇" else if i = 2 then "🥈" else if i = 3 then "🥉"
    else pad2 i ++ "."
  let name ← playerName df row
  let ms : Option Value × String ←
    if df.hasCol "total_runs" then do pure (some (← df.rowItem row "total_runs"), "runs")
    else if df.hasCol "runs" then do pure (some (← df.rowItem row "runs"), "runs")
    else if df.hasCol "wickets" then do pure (some (← df.rowItem row "wickets"), "wickets")
    else if df.hasCol "death_runs" then do pure (some (← df.rowItem row "death_runs"), "death runs")
    else if df.hasCol "strike_rate" || df.hasCol "death_sr" then
      pure ((df.rowGet row "strike_rate").orElse (fun _ => df.rowGet row "death_sr"), "SR")
    else
      match (df.cols.filter (fun c => isNumericCol df c)).head? with
      | some c0 => do pure (some (← df.rowItem row c0), metricName)
      | none => pure (none, metricName)
  match ms.1 with
  | none => pure (medal ++ " **" ++ name ++ "**\n")
  | some v => do
    let valueStr ←
      match v with
      | .float q =>
        if ms.2 = "SR" then pure (fixedOfRat 2 q)
        else if 100 * (q.den : Int) ≤ q.num then pure (commaFixed0 q)
        else pure (fixedOfRat 1 q)
      | _ => fmtComma v
    pure (medal ++ " **" ++ name ++ "** - " ++ valueStr ++ " " ++ ms.2 ++ "\n")

/-- The `enumerate(df.head(15).iterrows(), 1)` loop of the baseline
formatter. -/
def formatRowsP (df : DataFrame) (metricName : String) :
    Nat → List (List Value) → Except String String
  | _, [] => pure ""
  | i, row :: rest => do
    let line ← formatRowP df metricName i row
    let tail ← formatRowsP df metricName (i + 1) rest
    pure (line ++ tail)

/-- Method `_format_dataframe` of the baseline chatbot (takes the lower-cased
question). -/
def formatDataframeP (df : DataFrame) (questionLower : String) : String :=
  let metricName :=
    if containsAny questionLower ["run", "scorer", "batting"] then "runs"
    else if containsAny questionLower ["wicket", "bowler"] then "wickets"
    else if containsSub questionLower "strike rate" then "strike rate"
    else "points"
  let body : Except String String := do
    let rowsTxt ← formatRowsP df metricName 1 (df.rows.take 15)
    let extra := if df.rows.length > 15 then
        "\n... and " ++ toString (df.rows.length - 15) ++ " more results"
      else ""
    pure ("🏏 **Top " ++ toString (min df.rows.length 15) ++ " Results:**\n\n" ++
      rowsTxt ++ extra)
  match body with
  | .ok s => s
  | .error e => "Error formatting results: " ++ e

/-- Method `_format_result` of the baseline chatbot. -/
def formatResultP (result : Option DataFrame) (userQuestion : String) : String :=
  match result with
  | none => "Sorry, I couldn't process your query. Please try rephrasing your question."
  | some df =>
    if df.rows.length = 0 then "No data found matching your criteria."
    else formatDataframeP df (pyLower userQuestion)

/-- The `'c' in df.columns and pd.notna(row['c'])` guard of the enhanced
formatter, returning the value when it passes. -/
def colNotna (df : DataFrame) (row : List Value) (c : String) :
    Except String (Option Value) :=
  if df.hasCol c then do
    let v ← df.rowItem row c
    pure (if v.notna then some v else none)
  else pure none

/-- The `'c' in df.columns and row['c'] > 0` guard of the enhanced formatter,
returning the value when it passes. -/
def colGtZero (df : DataFrame) (row : List Value) (c : String) :
    Except String (Option Value) :=
  if df.hasCol c then do
    let v ← df.rowItem row c
    let b ← valGtZero v
    pure (if b then some v else none)
  else pure none

/-- One row of the enhanced formatter (body of the loop at lines 258-311
of src/ipl_chatbot_enhanced.py). -/
def formatRowE (df : DataFrame) (i : Nat) (row : List Value) :
    Except String String := do
  let medal := if i = 1 then "🥇" else if i = 2 then "🥈" else if i = 3 then "🥉"
    else "**" ++ pad2 i ++ ".**"
  let name ← playerName df row
  let parts : List String := []
  let parts ←
    if df.hasCol "total_runs" then do
      pure (parts ++ ["**" ++ (← fmtComma (← df.rowItem row "total_runs")) ++ " runs**"])
    else if df.hasCol "runs" then do
      pure (parts ++ ["**" ++ (← fmtComma (← df.rowItem row "runs")) ++ " runs**"])
    else if df.hasCol "death_runs" then do
      pure (parts ++ ["**" ++ (← fmtComma (← df.rowItem row "death_runs")) ++ " death runs**"])
    else pure parts
  let parts ←
    match ← colNotna df row "strike_rate" with
    | some v => do pure (parts ++ ["SR: " ++ (← fmtFixed 1 v)])
    | none =>
      match ← colNotna df row "death_sr_vs_pace" with
      | some v => do pure (parts ++ ["Death SR: " ++ (← fmtFixed 1 v)])
      | none =>
        match ← colNotna df row "death_sr" with
        | some v => do pure (parts ++ ["Death SR: " ++ (← fmtFixed 1 v)])
        | none => pure parts
  let parts ←
    match ← colNotna df row "batting_average" with
    | some v => do
      if ← valGtZero v then pure (parts ++ ["Avg: " ++ (← fmtFixed 1 v)])
      else pure parts
    | none => pure parts
  let parts ←
    if df.hasCol "fours" && df.hasCol "sixes" then do
      pure (parts ++ ["4s/6s: " ++ pyStr (← df.rowItem row "fours") ++ "/" ++
        pyStr (← df.rowItem row "sixes")])
    else if df.hasCol "boundaries" then do
      pure (parts ++ ["Boundaries: " ++ pyStr (← df.rowItem row "boundaries")])
    else pure parts
  let parts ←
    if df.hasCol "wickets" then do
      pure (parts ++ ["**" ++ pyStr (← df.rowItem row "wickets") ++ " wickets**"])
    else pure parts
  let parts ←
    match ← colNotna df row "bowling_avg" with
    | some v => do pure (parts ++ ["Avg: " ++ (← fmtFixed 1 v)])
    | none => pure parts
  let parts ←
    match ← colNotna df row "economy_rate" with
    | some v => do pure (parts ++ ["Eco: " ++ (← fmtFixed 1 v)])
    | none => pure parts
  let parts ←
    match ← colGtZero df row "balls_faced" with
    | some v => pure (parts ++ ["(" ++ pyStr v ++ " balls)"])
    | none =>
      match ← colGtZero df row "death_balls_vs_pace" with
      | some v => pure (parts ++ ["(" ++ pyStr v ++ " vs pace)"])
      | none =>
        match ← colGtZero df row "balls_bowled" with
        | some v => pure (parts ++ ["(" ++ pyStr v ++ " balls)"])
        | none => pure parts
  let statsStr := String.intercalate " | " parts
  pure (medal ++ " **" ++ name ++ "** - " ++ statsStr ++ "\n")

/-- The `enumerate(df.head(12).iterrows(), 1)` loop of the enhanced
formatter. -/
def formatRowsE (df : DataFrame) : Nat → List (List Value) → Except String String
  | _, [] => pure ""
  | i, row :: rest => do
    let line ← formatRowE df i row
    let tail ← formatRowsE df (i + 1) rest
    pure (line ++ tail)

/-- Method `_format_enhanced_dataframe` (the `question_lower` parameter is unused
by its body). -/
def formatEnhancedDataframe (df : DataFrame) (_questionLower : String) : String :=
  let body : Except String String := do
    let rowsTxt ← formatRowsE df 1 (df.rows.take 12)
    let extra := if df.rows.length > 12 then
        "\n... and " ++ toString (df.rows.length - 12) ++ " more results"
      else ""
    pure ("🏏 **Cricket Analytics Results:**\n\n" ++ rowsTxt ++ extra)
  match body with
  | .ok s => s
  | .error e => "Error formatting results: " ++ e

/-- Method `_format_result` of the enhanced chatbot. -/
def formatResultE (result : Option DataFrame) (userQuestion : String) : String :=
  match result with
  | none => "Sorry, I couldn't process your query. Please try rephrasing your question."
  | some df =>
    if df.rows.length = 0 then "No data found matching your criteria."
    else formatEnhancedDataframe df (pyLower userQuestion)

/-! ## Fallback templates (exact SQL strings from the source) -/

/-- Baseline category 1 (src/ipl_chatbot_postgres.py line 281). -/
def pgCat1 : String :=
  "SELECT \"batter\", SUM(\"runs_batter\") as total_runs FROM ipl_balls WHERE \"batter\" != '' GROUP BY \"batter\" ORDER BY total_runs DESC LIMIT 10"

/-- Baseline category 2 (line 286). -/
def pgCat2 : String :=
  "SELECT \"bowler\", COUNT(*) as wickets FROM ipl_balls WHERE \"isWicket\" = TRUE AND \"bowler\" != '' GROUP BY \"bowler\" ORDER BY wickets DESC LIMIT 10"

/-- Baseline category 3 (lines 291-300, triple-quoted). -/
def pgCat3 : String :=
  "\n                SELECT \"batter\", SUM(\"runs_batter\") as runs \n                FROM ipl_balls \n                WHERE \"over\" >= 16 AND (\"bowling_style\" LIKE '%rm%' OR \"bowling_style\" LIKE '%rfm%' OR \"bowling_style\" LIKE '%lfm%')\n                AND \"batter\" != ''\n                GROUP BY \"batter\" \n                HAVING SUM(\"runs_batter\") > 50\n                ORDER BY runs DESC \n                LIMIT 10\n                "

/-- Baseline category 4 (lines 305-316, triple-quoted). -/
def pgCat4 : String :=
  "\n                SELECT \"batter\", \n                       SUM(\"runs_batter\") as death_runs,\n                       COUNT(*) as death_balls,\n                       ROUND((SUM(\"runs_batter\")::numeric / NULLIF(COUNT(*), 0)) * 100, 2) as death_sr\n                FROM ipl_balls \n                WHERE \"over\" >= 16 AND \"batter\" != ''\n                GROUP BY \"batter\"\n                HAVING COUNT(*) >= 30\n                ORDER BY death_sr DESC \n                LIMIT 10\n                "

/-- Baseline no-match help message (lines 321-328). -/
def pgHelp : String :=
  "I couldn't understand your question. Please try asking about:\n\n• Top run scorers or wicket takers\n• Performance in death overs, powerplay, or middle overs\n• Strike rates or averages\n• Specific seasons (2008-2024)\n• Performance vs pace or spin bowling\n• Team-specific statistics\n\nExample: 'Who are the top 10 run scorers in IPL history?'"

/-- Enhanced category 1 (src/ipl_chatbot_enhanced.py lines 328-343). -/
def enCat1 : String :=
  "\n                SELECT \n                    \"batter\",\n                    COUNT(*) as balls_faced,\n                    SUM(\"runs_batter\") as total_runs,\n                    SUM(\"isFour\"::int) as fours,\n                    SUM(\"isSix\"::int) as sixes,\n                    ROUND((SUM(\"runs_batter\")::numeric / NULLIF(COUNT(*), 0)) * 100, 2) as strike_rate,\n                    COUNT(CASE WHEN \"isWicket\" = TRUE THEN 1 END) as times_out,\n                    ROUND(SUM(\"runs_batter\")::numeric / NULLIF(COUNT(CASE WHEN \"isWicket\" = TRUE THEN 1 END), 0), 2) as batting_average\n                FROM ipl_balls \n                WHERE \"batter\" != '' AND \"batter\" IS NOT NULL\n                GROUP BY \"batter\"\n                HAVING SUM(\"runs_batter\") > 500\n                ORDER BY total_runs DESC LIMIT 12\n                "

/-- Enhanced category 2 (lines 349-362). -/
def enCat2 : String :=
  "\n                SELECT \n                    \"bowler\",\n                    COUNT(CASE WHEN \"isWicket\" = TRUE THEN 1 END) as wickets,\n                    COUNT(*) as balls_bowled,\n                    SUM(\"runs_total\") as runs_conceded,\n                    ROUND(SUM(\"runs_total\")::numeric / NULLIF(COUNT(CASE WHEN \"isWicket\" = TRUE THEN 1 END), 0), 2) as bowling_avg,\n                    ROUND((SUM(\"runs_total\")::numeric / NULLIF(COUNT(*), 0)) * 6, 2) as economy_rate\n                FROM ipl_balls \n                WHERE \"bowler\" != '' AND \"bowler\" IS NOT NULL\n                GROUP BY \"bowler\"\n                HAVING COUNT(CASE WHEN \"isWicket\" = TRUE THEN 1 END) >= 15\n                ORDER BY wickets DESC LIMIT 12\n                "

/-- Enhanced category 3 (lines 368-384). -/
def enCat3 : String :=
  "\n                SELECT \n                    \"batter\",\n                    COUNT(*) as death_balls_vs_pace,\n                    SUM(\"runs_batter\") as death_runs,\n                    ROUND((SUM(\"runs_batter\")::numeric / NULLIF(COUNT(*), 0)) * 100, 2) as death_sr_vs_pace,\n                    SUM(\"isFour\"::int) + SUM(\"isSix\"::int) as boundaries,\n                    SUM(\"isFour\"::int) as fours,\n                    SUM(\"isSix\"::int) as sixes\n                FROM ipl_balls \n                WHERE \"over\" >= 16 \n                    AND (\"bowling_style\" LIKE '%rm%' OR \"bowling_style\" LIKE '%rf%' OR \"bowling_style\" IN ('rm','rfm','rmf','lf','lfm','lmf'))\n                    AND \"batter\" != '' AND \"batter\" IS NOT NULL\n                GROUP BY \"batter\"\n                HAVING COUNT(*) >= 25\n                ORDER BY death_runs DESC LIMIT 12\n                "

/-- Enhanced category 4 (lines 390-402). -/
def enCat4 : String :=
  "\n                SELECT \n                    \"batter\",\n                    COUNT(*) as death_balls,\n                    SUM(\"runs_batter\") as death_runs,\n                    ROUND((SUM(\"runs_batter\")::numeric / NULLIF(COUNT(*), 0)) * 100, 2) as death_sr,\n                    SUM(\"isFour\"::int) + SUM(\"isSix\"::int) as boundaries\n                FROM ipl_balls \n                WHERE \"over\" >= 16 AND \"batter\" != '' AND \"batter\" IS NOT NULL\n                GROUP BY \"batter\"\n                HAVING COUNT(*) >= 30 AND SUM(\"runs_batter\") > 100\n                ORDER BY death_sr DESC LIMIT 12\n                "

/-- Enhanced category 5: the year-parameterized f-string (lines 415-430).
Python computes `year = int(y)` and re-renders it with `{year}`, which for
the four fixed numerals is the numeral itself. -/
def enYearTemplate (y : String) : String :=
  "\n                    SELECT \n                        \"batter\",\n                        SUM(\"runs_batter\") as total_runs,\n                        COUNT(*) as balls_faced,\n                        ROUND((SUM(\"runs_batter\")::numeric / NULLIF(COUNT(*), 0)) * 100, 2) as strike_rate,\n                        SUM(\"isFour\"::int) as fours,\n                        SUM(\"isSix\"::int) as sixes,\n                        COUNT(CASE WHEN \"isWicket\" = TRUE THEN 1 END) as times_out,\n                        ROUND(SUM(\"runs_batter\")::numeric / NULLIF(COUNT(CASE WHEN \"isWicket\" = TRUE THEN 1 END), 0), 2) as batting_average\n                    FROM ipl_balls \n                    WHERE \"year\" = " ++ y ++ " AND \"batter\" != '' AND \"batter\" IS NOT NULL\n                    GROUP BY \"batter\"\n                    HAVING SUM(\"runs_batter\") > 200\n                    ORDER BY total_runs DESC LIMIT 12\n                    "

/-- Method `_get_helpful_suggestions` (lines 440-460). -/
def enSuggestions : String :=
  "I can help you with detailed IPL cricket analytics! Try asking about:\n\n🏏 **Batting Analysis:**\n• \"Top run scorers in IPL history\" (with strike rate, average, boundaries)\n• \"Best batters in death overs vs pace bowling\"\n• \"Highest strike rates in powerplay\"\n• \"Best batting averages in IPL 2024\"\n\n🎯 **Bowling Analysis:**  \n• \"Top wicket takers in IPL\" (with economy, average, strike rate)\n• \"Best bowling figures in death overs\"\n• \"Most economical bowlers in powerplay\"\n\n📊 **Advanced Queries:**\n• \"Strike rate analysis in death overs\"\n• \"Left-handed batsmen vs spin bowling\"\n• \"Team performance in specific seasons\"\n\n**Example:** Try \"Best batters vs pace bowling in death overs\" for comprehensive statistics!"

/-! ## Fallback resolvers

Each resolver returns the answer together with the list of SQL strings it
sent to `_execute_query`, in order (the trace is the verification-side
record of executor calls; the answer component is exactly the Python
return value). -/

/-- Branch predicate of `_try_fallback_queries` category 1 (baseline,
line 280). -/
def pgCond1 (q : String) : Bool :=
  containsAny q ["top", "best", "highest"] && containsAny q ["run", "scorer"]

/-- Branch predicate of baseline category 2 (line 285). -/
def pgCond2 (q : String) : Bool :=
  containsAny q ["wicket", "bowler"] && containsSub q "top"

/-- Branch predicate of baseline category 3 (line 290). -/
def pgCond3 (q : String) : Bool :=
  containsSub q "death over" && containsSub q "pace"

/-- Branch predicate of baseline category 4 (line 304). -/
def pgCond4 (q : String) : Bool :=
  containsSub q "death over" && containsSub q "strike rate"

/-- Method `_try_fallback_queries` (src/ipl_chatbot_postgres.py lines 274-331).
The `try` body contains no raising operation once `_execute_query` and
`_format_result` (which catch internally) are accounted for, so the
`except` arm is dead and the function is total. -/
def fallbackPT (O : Oracle) (question : String) : String × List String :=
  let q := pyLower question
  if pgCond1 q then
    (formatResultP (execQuery O pgCat1) question, [pgCat1])
  else if pgCond2 q then
    (formatResultP (execQuery O pgCat2) question, [pgCat2])
  else if pgCond3 q then
    (formatResultP (execQuery O pgCat3) question, [pgCat3])
  else if pgCond4 q then
    (formatResultP (execQuery O pgCat4) question, [pgCat4])
  else
    (pgHelp, [])

/-- Branch predicate of `_try_enhanced_fallback_queries` category 1
(src/ipl_chatbot_enhanced.py line 327).  Note the exclusion list:
`['death', '2024', '2023', '2022', 'pace', 'bowling']` — `'2021'` is
absent. -/
def enCond1 (q : String) : Bool :=
  (containsAny q ["top", "best", "highest"] &&
    containsAny q ["run", "scorer", "batsman", "batter"]) &&
  !containsAny q ["death", "2024", "2023", "2022", "pace", "bowling"]

/-- Branch predicate of enhanced category 2 (line 348). -/
def enCond2 (q : String) : Bool :=
  containsAny q ["wicket", "bowler"] && containsSub q "top"

/-- Branch predicate of enhanced category 3 (line 367). -/
def enCond3 (q : String) : Bool :=
  (containsSub q "death" && containsSub q "pace") ||
  (containsSub q "death over" && (containsSub q "pace" || containsSub q "vs pace"))

/-- Branch predicate of enhanced category 4 (line 389). -/
def enCond4 (q : String) : Bool :=
  (containsSub q "strike rate" || containsSub q "sr") && containsSub q "death"

/-- The year keywords tested by enhanced category 5 (lines 407-412), in
source order. -/
def enYears : List String := ["2024", "2023", "2022", "2021"]

/-- Branch predicate of enhanced category 5 (line 407). -/
def enCond5 (q : String) : Bool :=
  enYears.any (fun y => containsSub q y)

/-- Method `_try_enhanced_fallback_queries` (lines 321-438).  The function's
Python return type is `Optional[str]`: in the category-5 branch, if the
inner `for` loop found no year the trailing `if year:` falls through and
the function returns `None` (modelled by `none`); that branch is proved
unreachable in the totality theorem. -/
def fallbackET (O : Oracle) (question : String) : Option String × List String :=
  let q := pyLower question
  if enCond1 q then
    (some (formatResultE (execQuery O enCat1) question), [enCat1])
  else if enCond2 q then
    (some (formatResultE (execQuery O enCat2) question), [enCat2])
  else if enCond3 q then
    (some (formatResultE (execQuery O enCat3) question), [enCat3])
  else if enCond4 q then
    (some (formatResultE (execQuery O enCat4) question), [enCat4])
  else if enCond5 q then
    match enYears.find? (fun y => containsSub q y) with
    | some y =>
      let sql := enYearTemplate y
      (some (formatResultE (execQuery O sql) question), [sql])
    | none => (none, [])
  else
    (some enSuggestions, [])

/-! ## The `ask` pipelines -/

/-- Method `IPLStatsPostgresChatbot.ask` (lines 333-353), with the executor-call
trace.  `if not query_code:` treats both `None` and `""` as synthesis
failure. -/
def askPT (O : Oracle) (question : String) : String × List String :=
  match getQueryFromLLM O question with
  | none => fallbackPT O question
  | some qc =>
    if qc = "" then fallbackPT O question
    else
      match execQuery O qc with
      | none =>
        let r := fallbackPT O question
        (r.1, qc :: r.2)
      | some df => (formatResultP (some df) question, [qc])

/-- Method `IPLStatsPostgresChatbot.ask`, answer only. -/
def askP (O : Oracle) (question : String) : String := (askPT O question).1

/-- Method `IPLStatsEnhancedChatbot.ask` (lines 462-483), with the executor-call
trace.  Unlike the baseline, an *empty* primary result also routes to the
fallback resolver (line 476). -/
def askET (O : Oracle) (question : String) : Option String × List String :=
  match getQueryFromLLM O question with
  | none => fallbackET O question
  | some qc =>
    if qc = "" then fallbackET O question
    else
      match execQuery O qc with
      | none =>
        let r := fallbackET O question
        (r.1, qc :: r.2)
      | some df =>
        if df.rows.length = 0 then
          let r := fallbackET O question
          (r.1, qc :: r.2)
        else (some (formatResultE (some df) question), [qc])

/-- Method `IPLStatsEnhancedChatbot.ask`, answer only. -/
def askE (O : Oracle) (question : String) : Option String := (askET O question).1

/-! ## Helper lemmas about the Python string primitives -/

theorem isPrefixOf_append_self (l t : List Char) : l.isPrefixOf (l ++ t) = true := by
  induction l with
  | nil => simp [List.isPrefixOf]
  | cons a as ih => simp [List.isPrefixOf, ih]

theorem isPrefixOf_of_append_le (sep : List Char) :
    ∀ q r : List Char, sep.isPrefixOf (q ++ r) = true → sep.length ≤ q.length →
      sep.isPrefixOf q = true := by
  induction sep with
  | nil => intro q r _ _; simp [List.isPrefixOf]
  | cons s sep' ih =>
    intro q r hpre hlen
    cases q with
    | nil => simp at hlen
    | cons qh qt =>
      simp only [List.cons_append, List.isPrefixOf, Bool.and_eq_true, beq_iff_eq] at hpre ⊢
      exact ⟨hpre.1, ih qt r hpre.2 (by simpa using hlen)⟩

theorem occursIn_of_isPrefixOf (sep v : List Char) (h : sep.isPrefixOf v = true) :
    occursIn sep v = true := by
  cases v with
  | nil =>
    cases sep with
    | nil => rfl
    | cons s sep' => simp [List.isPrefixOf] at h
  | cons c cs => simp [occursIn, h]

theorem occursIn_append_self (sep : List Char) :
    ∀ a t : List Char, occursIn sep (a ++ (sep ++ t)) = true := by
  intro a
  induction a with
  | nil =>
    intro t
    simp only [List.nil_append]
    exact occursIn_of_isPrefixOf _ _ (isPrefixOf_append_self sep t)
  | cons x a' ih =>
    intro t
    simp [occursIn, ih t]

theorem sep_length_pos_of_guard {sep : List Char} {l : List Char}
    (hg : (sep.isPrefixOf l && !sep.isEmpty) = true) : 1 ≤ sep.length := by
  rcases sep with _ | ⟨s0, sep'⟩
  · simp [List.isEmpty] at hg
  · simp

/-- Fuel irrelevance for `pySplitAux`: any two sufficient fuels agree. -/
theorem pySplitAux_fuel_eq (sep : List Char) :
    ∀ fuel₁ s fuel₂ acc, s.length ≤ fuel₁ → s.length ≤ fuel₂ →
      pySplitAux sep fuel₁ s acc = pySplitAux sep fuel₂ s acc := by
  intro fuel₁
  induction fuel₁ with
  | zero =>
    intro s fuel₂ acc h1 _
    have : s = [] := List.length_eq_zero.mp (Nat.le_zero.mp h1)
    subst this
    cases fuel₂ <;> simp [pySplitAux]
  | succ f ih =>
    intro s fuel₂ acc h1 h2
    cases s with
    | nil => cases fuel₂ <;> simp [pySplitAux]
    | cons c cs =>
      cases fuel₂ with
      | zero => simp at h2
      | succ f₂ =>
        simp only [List.length_cons] at h1 h2
        cases hg : (sep.isPrefixOf (c :: cs) && !sep.isEmpty) with
        | true =>
          have hsep1 : 1 ≤ sep.length := sep_length_pos_of_guard hg
          have hdlen : (List.drop sep.length (c :: cs)).length = cs.length + 1 - sep.length := by
            rw [List.length_drop, List.length_cons]
          simp only [pySplitAux, hg, if_true]
          congr 1
          exact ih _ f₂ [] (by omega) (by omega)
        | false =>
          simp only [pySplitAux, hg, if_false]
          exact ih cs f₂ (c :: acc) (by omega) (by omega)

/-- Running `pySplitAux` on an input with no separator occurrence yields a single
chunk. -/
theorem pySplitAux_no_occurrence (sep : List Char) :
    ∀ s fuel acc, s.length ≤ fuel → occursIn sep s = false →
      pySplitAux sep fuel s acc = [acc.reverse ++ s] := by
  intro s
  induction s with
  | nil =>
    intro fuel acc _ _
    cases fuel <;> simp [pySplitAux]
  | cons c cs ih =>
    intro fuel acc hf hno
    cases fuel with
    | zero => simp at hf
    | succ f =>
      simp only [occursIn, Bool.or_eq_false_iff] at hno
      have hg : (sep.isPrefixOf (c :: cs) && !sep.isEmpty) = false := by
        simp [hno.1]
      simp only [pySplitAux, hg, if_false]
      rw [ih f (c :: acc) (by simp only [List.length_cons] at hf; omega) hno.2]
      simp

/-- The key splitting lemma: if `sep` does not occur in `a ++ sep.dropLast`
(i.e. not before position `a.length` in `a ++ sep ++ t`), then `pySplitAux`
on `a ++ sep ++ t` extracts `a` as the first chunk and restarts on `t`. -/
theorem pySplitAux_extract (sep : List Char) (hsep : sep ≠ []) :
    ∀ a t acc fuel, (a ++ sep ++ t).length ≤ fuel →
      occursIn sep (a ++ sep.dropLast) = false →
      pySplitAux sep fuel (a ++ sep ++ t) acc =
        (acc.reverse ++ a) :: pySplitAux sep t.length t [] := by
  intro a
  induction a with
  | nil =>
    intro t acc fuel hf _
    rcases sep with _ | ⟨s0, sep'⟩
    · exact absurd rfl hsep
    cases fuel with
    | zero => simp at hf
    | succ f =>
      have hpre : (s0 :: sep').isPrefixOf (s0 :: (sep' ++ t)) = true :=
        isPrefixOf_append_self (s0 :: sep') t
      have hg : ((s0 :: sep').isPrefixOf (s0 :: (sep' ++ t)) && !(s0 :: sep').isEmpty) = true := by
        simp [hpre, List.isEmpty]
      have hdrop : List.drop (s0 :: sep').length (s0 :: (sep' ++ t)) = t :=
        List.drop_left (s0 :: sep') t
      simp only [List.nil_append, List.append_nil, List.cons_append]
      simp only [pySplitAux, hg, if_true]
      rw [hdrop]
      congr 1
      apply pySplitAux_fuel_eq
      · simp only [List.cons_append, List.length_cons, List.length_append] at hf
        omega
      · exact Nat.le_refl _
  | cons x a' ih =>
    intro t acc fuel hf hno
    cases fuel with
    | zero => simp at hf
    | succ f =>
      have hno' : occursIn sep (a' ++ sep.dropLast) = false := by
        simp only [List.cons_append, occursIn, Bool.or_eq_false_iff] at hno
        exact hno.2
      have hgp : sep.isPrefixOf (x :: (a' ++ (sep ++ t))) = false := by
        cases hc : sep.isPrefixOf (x :: (a' ++ (sep ++ t))) with
        | false => rfl
        | true =>
          exfalso
          have hdecomp : x :: (a' ++ (sep ++ t)) =
              (x :: (a' ++ sep.dropLast)) ++ (sep.getLast hsep :: t) := by
            conv_lhs => rw [← List.dropLast_append_getLast hsep]
            simp [List.append_assoc]
          have hlen : sep.length ≤ (x :: (a' ++ sep.dropLast)).length := by
            simp only [List.length_cons, List.length_append, List.length_dropLast]
            have h1 : 1 ≤ sep.length := by
              rcases sep with _ | _
              · exact absurd rfl hsep
              · simp
            omega
          rw [hdecomp] at hc
          have h2 := isPrefixOf_of_append_le sep _ _ hc hlen
          have hocc : occursIn sep (x :: (a' ++ sep.dropLast)) = true :=
            occursIn_of_isPrefixOf _ _ h2
          have hno2 : occursIn sep (x :: (a' ++ sep.dropLast)) = false := by
            simpa [List.cons_append] using hno
          rw [hno2] at hocc
          exact Bool.false_ne_true hocc
      have hg : (sep.isPrefixOf (x :: (a' ++ (sep ++ t))) && !sep.isEmpty) = false := by
        simp [hgp]
      simp only [List.cons_append, List.append_assoc] at hf ⊢
      simp only [pySplitAux, hg, if_false]
      have hfa : (a' ++ (sep ++ t)).length ≤ f := by
        simp only [List.length_cons, List.length_append] at hf ⊢
        omega
      have := ih t (x :: acc) f (by simpa [List.append_assoc] using hfa) hno'
      simp only [List.append_assoc] at this
      rw [this]
      simp

theorem toList_mk (l : List Char) : (String.mk l).toList = l := rfl

theorem mk_toList (s : String) : String.mk s.toList = s := by cases s; rfl

theorem toList_append (s t : String) : (s ++ t).toList = s.toList ++ t.toList := by
  cases s; cases t; rfl

theorem dropWhile_head_not (p : Char → Bool) :
    ∀ l c, (List.dropWhile p l).head? = some c → p c = false := by
  intro l
  induction l with
  | nil => intro c h; simp [List.dropWhile] at h
  | cons x xs ih =>
    intro c h
    by_cases hp : p x = true
    · rw [List.dropWhile_cons_of_pos hp] at h
      exact ih c h
    · rw [List.dropWhile_cons_of_neg hp] at h
      simp only [List.head?_cons, Option.some.injEq] at h
      subst h
      exact Bool.eq_false_iff.mpr hp

theorem dropWhile_getLast? (p : Char → Bool) :
    ∀ l, List.dropWhile p l ≠ [] → (List.dropWhile p l).getLast? = l.getLast? := by
  intro l
  induction l with
  | nil => intro h; simp [List.dropWhile] at h
  | cons x xs ih =>
    intro h
    by_cases hp : p x = true
    · rw [List.dropWhile_cons_of_pos hp] at h ⊢
      have hxs : xs ≠ [] := by
        intro he; rw [he] at h; simp [List.dropWhile] at h
      rw [ih h]
      cases xs with
      | nil => exact absurd rfl hxs
      | cons y ys => simp [List.getLast?_cons_cons]
    · rw [List.dropWhile_cons_of_neg hp]

/-- A string has no surrounding whitespace: its first and last characters
(if any) are not Python whitespace. -/
def noSurroundingWs (s : String) : Bool :=
  (match s.toList.head? with
   | some c => !isPySpace c
   | none => true) &&
  (match s.toList.getLast? with
   | some c => !isPySpace c
   | none => true)

theorem pyStrip_noSurroundingWs (s : String) : noSurroundingWs (pyStrip s) = true := by
  unfold noSurroundingWs pyStrip stripL
  rw [toList_mk]
  set p := isPySpace
  set l := s.toList
  set y := (l.dropWhile p).reverse with hy
  apply Bool.and_eq_true_iff.mpr
  constructor
  · rw [List.head?_reverse]
    cases hz : (y.dropWhile p).getLast? with
    | none => rfl
    | some c =>
      have hne : y.dropWhile p ≠ [] := by
        intro he; rw [he] at hz; simp at hz
      rw [dropWhile_getLast? p y hne] at hz
      rw [hy, List.getLast?_reverse] at hz
      have := dropWhile_head_not p l c hz
      simp [this]
  · rw [List.getLast?_reverse]
    cases hz : (y.dropWhile p).head? with
    | none => rfl
    | some c =>
      have := dropWhile_head_not p y c hz
      simp [this]

/-- The `"```sql" in query_code` branch of the cleanup: on a reply whose
stripped form decomposes as `a ++ "```sql" ++ b ++ "```" ++ c` with the
fenced-block delimiters being the first ones (the `containsSub`
hypotheses say the opening fence does not occur earlier and the block body
contains no fence), the extracted query is `b`, cleaned. -/
theorem cleanLLMReply_sql (r a b c : String)
    (hdec : pyStrip r = a ++ "```sql" ++ b ++ "```" ++ c)
    (h1 : containsSub (a ++ "```sq") "```sql" = false)
    (h2 : containsSub (b ++ "```" ++ c) "```sql" = false)
    (h3 : containsSub (b ++ "``") "```" = false) :
    cleanLLMReply r = pyStrip (pyRstripSemis (pyStrip b)) := by
  have hSQLne : ("```sql".toList : List Char) ≠ [] := by decide
  have hFne : ("```".toList : List Char) ≠ [] := by decide
  have h1' : occursIn "```sql".toList (a.toList ++ "```sql".toList.dropLast) = false := by
    rw [show ("```sql".toList : List Char).dropLast = "```sq".toList from by decide]
    simpa [containsSub, toList_append] using h1
  have h2' : occursIn "```sql".toList (b.toList ++ ("```".toList ++ c.toList)) = false := by
    simpa [containsSub, toList_append, List.append_assoc] using h2
  have h3' : occursIn "```".toList (b.toList ++ "```".toList.dropLast) = false := by
    rw [show ("```".toList : List Char).dropLast = "``".toList from by decide]
    simpa [containsSub, toList_append] using h3
  have htl : (a ++ "```sql" ++ b ++ "```" ++ c).toList =
      (a.toList ++ "```sql".toList) ++ (b.toList ++ ("```".toList ++ c.toList)) := by
    simp [toList_append, List.append_assoc]
  have hcond : containsSub (a ++ "```sql" ++ b ++ "```" ++ c) "```sql" = true := by
    unfold containsSub
    rw [htl]
    simpa [List.append_assoc] using
      occursIn_append_self "```sql".toList a.toList (b.toList ++ ("```".toList ++ c.toList))
  have hsplit1b :
      pySplitAux "```sql".toList (b.toList ++ ("```".toList ++ c.toList)).length
        (b.toList ++ ("```".toList ++ c.toList)) [] =
      [b.toList ++ ("```".toList ++ c.toList)] := by
    rw [pySplitAux_no_occurrence "```sql".toList _ _ [] (Nat.le_refl _) h2']
    simp
  have hsplit1 : pySplit "```sql" (a ++ "```sql" ++ b ++ "```" ++ c) =
      [String.mk a.toList, String.mk (b.toList ++ ("```".toList ++ c.toList))] := by
    unfold pySplit
    rw [htl]
    rw [pySplitAux_extract "```sql".toList hSQLne a.toList _ [] _ (Nat.le_refl _) h1']
    rw [hsplit1b]
    simp
  have hinner : pySplit "```" (String.mk (b.toList ++ ("```".toList ++ c.toList))) =
      String.mk b.toList ::
        (pySplitAux "```".toList c.toList.length c.toList []).map String.mk := by
    have hassoc : b.toList ++ ("```".toList ++ c.toList) =
        (b.toList ++ "```".toList) ++ c.toList := (List.append_assoc _ _ _).symm
    have hw : pySplit "```" (String.mk (b.toList ++ ("```".toList ++ c.toList))) =
        (pySplitAux "```".toList (b.toList ++ ("```".toList ++ c.toList)).length
          (b.toList ++ ("```".toList ++ c.toList)) []).map String.mk := rfl
    rw [hw, hassoc]
    rw [pySplitAux_extract "```".toList hFne b.toList c.toList [] _ (Nat.le_refl _) h3']
    simp
  simp only [cleanLLMReply]
  rw [hdec, hcond]
  rw [if_pos rfl]
  rw [hsplit1]
  simp only [List.getD_cons_succ, List.getD_cons_zero]
  rw [hinner]
  simp only [List.getD_cons_zero]
  rw [mk_toList]

/-- The `elif "```" in query_code` branch of the cleanup: on a reply with
no `"```sql"` marker whose stripped form decomposes as
`a ++ "```" ++ b ++ "```" ++ c` around the first fenced block, the
extracted query is `b`, cleaned. -/
theorem cleanLLMReply_bare (r a b c : String)
    (hdec : pyStrip r = a ++ "```" ++ b ++ "```" ++ c)
    (hnosql : containsSub (pyStrip r) "```sql" = false)
    (h1 : containsSub (a ++ "``") "```" = false)
    (h3 : containsSub (b ++ "``") "```" = false) :
    cleanLLMReply r = pyStrip (pyRstripSemis (pyStrip b)) := by
  have hFne : ("```".toList : List Char) ≠ [] := by decide
  have h1' : occursIn "```".toList (a.toList ++ "```".toList.dropLast) = false := by
    rw [show ("```".toList : List Char).dropLast = "``".toList from by decide]
    simpa [containsSub, toList_append] using h1
  have h3' : occursIn "```".toList (b.toList ++ "```".toList.dropLast) = false := by
    rw [show ("```".toList : List Char).dropLast = "``".toList from by decide]
    simpa [containsSub, toList_append] using h3
  have htl : (a ++ "```" ++ b ++ "```" ++ c).toList =
      (a.toList ++ "```".toList) ++ (b.toList ++ ("```".toList ++ c.toList)) := by
    simp [toList_append, List.append_assoc]
  have hcond : containsSub (a ++ "```" ++ b ++ "```" ++ c) "```" = true := by
    unfold containsSub
    rw [htl]
    simpa [List.append_assoc] using
      occursIn_append_self "```".toList a.toList (b.toList ++ ("```".toList ++ c.toList))
  have hsplit2 :
      pySplitAux "```".toList (b.toList ++ ("```".toList ++ c.toList)).length
        (b.toList ++ ("```".toList ++ c.toList)) [] =
      b.toList :: pySplitAux "```".toList c.toList.length c.toList [] := by
    have hassoc : b.toList ++ ("```".toList ++ c.toList) =
        (b.toList ++ "```".toList) ++ c.toList := (List.append_assoc _ _ _).symm
    rw [hassoc]
    rw [pySplitAux_extract "```".toList hFne b.toList c.toList [] _ (Nat.le_refl _) h3']
    simp
  have hsplit1 : pySplit "```" (a ++ "```" ++ b ++ "```" ++ c) =
      String.mk a.toList :: String.mk b.toList ::
        (pySplitAux "```".toList c.toList.length c.toList []).map String.mk := by
    unfold pySplit
    rw [htl]
    rw [pySplitAux_extract "```".toList hFne a.toList _ [] _ (Nat.le_refl _) h1']
    rw [hsplit2]
    simp
  rw [hdec] at hnosql
  simp only [cleanLLMReply]
  rw [hdec, hnosql]
  simp only [Bool.false_eq_true, if_false]
  rw [hcond, if_pos rfl]
  rw [hsplit1]
  simp only [List.getD_cons_succ, List.getD_cons_zero]
  rw [mk_toList]

/-! ## Pace/spin bowling-style classification

Four places in the source state the pace test: the enhanced prompt
guidance (src/ipl_chatbot_enhanced.py line 89), the enhanced fallback
template filter (line 379, inside `enCat3`), the baseline prompt rule
(src/ipl_chatbot_postgres.py lines 119-120) and the baseline fallback
template filter (line 294, inside `pgCat3`).  Each is embedded as the
predicate on a bowling-style code that its SQL/prompt text denotes, with
`LIKE '%x%'` as substring containment and `IN (...)` as membership. -/

/-- List `self.pace_styles` (src/ipl_chatbot_enhanced.py line 36). -/
def pace_styles : List String := ["rm", "rfm", "rmf", "lf", "lfm", "lmf"]

/-- List `self.spin_styles` (src/ipl_chatbot_enhanced.py line 37). -/
def spin_styles : List String := ["ob", "lb", "sla", "lbg", "lws"]

/-- Pace rule of the enhanced prompt guidance (line 89):
`IN ('rm','rfm','rmf','lf','lfm','lmf') OR LIKE '%rm%' OR LIKE '%rf%'`. -/
def pacePromptE (s : String) : Bool :=
  pace_styles.contains s || containsSub s "rm" || containsSub s "rf"

/-- Pace filter of the enhanced fallback template (line 379):
`LIKE '%rm%' OR LIKE '%rf%' OR IN ('rm','rfm','rmf','lf','lfm','lmf')`. -/
def paceFallbackE (s : String) : Bool :=
  containsSub s "rm" || containsSub s "rf" || pace_styles.contains s

/-- Pace rule of the baseline prompt (lines 119-120):
`LIKE '%rm%' OR LIKE '%rfm%' OR LIKE '%lfm%'`. -/
def pacePromptP (s : String) : Bool :=
  containsSub s "rm" || containsSub s "rfm" || containsSub s "lfm"

/-- Pace filter of the baseline fallback template (line 294):
`LIKE '%rm%' OR LIKE '%rfm%' OR LIKE '%lfm%'`. -/
def paceFallbackP (s : String) : Bool :=
  containsSub s "rm" || containsSub s "rfm" || containsSub s "lfm"

/-- Spin classification per the spec: a non-empty style code not
classified pace. -/
def spinOf (pace : String → Bool) (s : String) : Bool := (s != "") && !pace s

/-- Claim C5. The pace/spin bowling-style classification is applied
identically in the synthesizer's prompt guidance and in the fallback
template that filters by bowling style, within each chatbot: the enhanced
prompt rule and the enhanced fallback filter agree on every style code,
and likewise for the baseline pair.  The code "rfm" is classified pace by
all four, and "ob" is classified spin (non-empty, not pace) by all four
and is listed in `spin_styles`. -/
theorem claim_C5_pace_spin_consistent :
    (∀ s, pacePromptE s = paceFallbackE s) ∧
    (∀ s, pacePromptP s = paceFallbackP s) ∧
    (pacePromptE "rfm" = true ∧ paceFallbackE "rfm" = true ∧
      pacePromptP "rfm" = true ∧ paceFallbackP "rfm" = true) ∧
    (spinOf pacePromptE "ob" = true ∧ spinOf paceFallbackE "ob" = true ∧
      spinOf pacePromptP "ob" = true ∧ spinOf paceFallbackP "ob" = true ∧
      "ob" ∈ spin_styles) := by
  refine ⟨?_, fun s => rfl, by decide, by decide⟩
  intro s
  unfold pacePromptE paceFallbackE
  cases h1 : containsSub s "rm" <;> cases h2 : containsSub s "rf" <;>
    cases h3 : pace_styles.contains s <;> simp [h1, h2, h3]

/-- Claim C9. Formatting is deterministic: formatting the same result table
twice with the same question yields the same string, in both chatbots
(the formatters are pure functions of the table and the question; no
mutable state enters the embedding because none is read by the source). -/
theorem claim_C9_format_deterministic :
    ∀ (result : Option DataFrame) (question : String),
      formatResultP result question = formatResultP result question ∧
      formatResultE result question = formatResultE result question :=
  fun _ _ => ⟨rfl, rfl⟩

/-- The one-row result table of claim C8: columns `batter`, `total_runs`,
`strike_rate` with values "V Kohli", 1250, 135.5. -/
def kohliDF : DataFrame :=
  ⟨["batter", "total_runs", "strike_rate"],
   [[Value.str "V Kohli", Value.int 1250, Value.float (mkRat 271 2)]]⟩

/-- Claim C8, counterexample. The baseline formatter `_format_dataframe`
shows only the primary statistic (here `total_runs`), so on the C8 table
its output does not contain "135.5" — the claim fails for this formatter. -/
theorem claim_C8_counterexample :
    containsSub (formatResultP (some kohliDF) "top run scorers") "135.5" = false := by
  decide

/-- Claim C8, amended. On the C8 one-row table, the *enhanced* formatter's
output contains "V Kohli", the thousands-separated "1,250" and "135.5",
and ranks the row first with the 🥇 marker; the baseline formatter's
output contains "V Kohli", "1,250" and the 🥇 marker but omits the strike
rate. -/
theorem claim_C8_amended_formatter_output :
    (containsSub (formatResultE (some kohliDF) "top run scorers") "V Kohli" = true ∧
     containsSub (formatResultE (some kohliDF) "top run scorers") "1,250" = true ∧
     containsSub (formatResultE (some kohliDF) "top run scorers") "135.5" = true ∧
     containsSub (formatResultE (some kohliDF) "top run scorers") "🥇 **V Kohli**" = true) ∧
    (containsSub (formatResultP (some kohliDF) "top run scorers") "V Kohli" = true ∧
     containsSub (formatResultP (some kohliDF) "top run scorers") "1,250" = true ∧
     containsSub (formatResultP (some kohliDF) "top run scorers") "🥇 **V Kohli**" = true) := by
  decide

/-- Claim C7, counterexample. The cleanup applies `rstrip(';')` *before*
`strip()`, so on the reply `"SELECT 1 ; ;"` the returned query is
`"SELECT 1 ;"` — it still ends with a semicolon, contradicting "in all
cases the returned query has trailing semicolons ... stripped". -/
theorem claim_C7_counterexample :
    cleanLLMReply "SELECT 1 ; ;" = "SELECT 1 ;" ∧
    (cleanLLMReply "SELECT 1 ; ;").toList.getLast? = some ';' := by
  decide

/-- Claim C7, amended. If the stripped reply contains a fenced code block,
the returned query is the contents of that block (between the first
`"```sql"` and the next fence, or between the first and second bare
fences when no `"```sql"` marker is present), run through the cleanup;
the cleanup strips one trailing run of semicolons and then surrounding
whitespace, so the result never has surrounding whitespace (but a
semicolon separated from the end by whitespace-and-semicolons may
remain). -/
theorem claim_C7_amended_cleanup :
    (∀ r a b c : String,
      pyStrip r = a ++ "```sql" ++ b ++ "```" ++ c →
      containsSub (a ++ "```sq") "```sql" = false →
      containsSub (b ++ "```" ++ c) "```sql" = false →
      containsSub (b ++ "``") "```" = false →
      cleanLLMReply r = pyStrip (pyRstripSemis (pyStrip b))) ∧
    (∀ r a b c : String,
      pyStrip r = a ++ "```" ++ b ++ "```" ++ c →
      containsSub (pyStrip r) "```sql" = false →
      containsSub (a ++ "``") "```" = false →
      containsSub (b ++ "``") "```" = false →
      cleanLLMReply r = pyStrip (pyRstripSemis (pyStrip b))) ∧
    (∀ r : String, noSurroundingWs (cleanLLMReply r) = true) := by
  refine ⟨cleanLLMReply_sql, cleanLLMReply_bare, ?_⟩
  intro r
  show noSurroundingWs (pyStrip (pyRstripSemis _)) = true
  exact pyStrip_noSurroundingWs _

/-- Witness for C7: a concrete fenced reply, cleaned through the theorem. -/
theorem claim_C7_witness :
    cleanLLMReply "```sql SELECT 9; ```" = "SELECT 9" :=
  (claim_C7_amended_cleanup.1 "```sql SELECT 9; ```" "" " SELECT 9; " ""
    (by decide) (by decide) (by decide) (by decide)).trans (by decide)

/-! ## Pipeline lemmas -/

theorem enYearTemplate_ne_empty (y : String) : enYearTemplate y ≠ "" := by
  intro h
  have h2 := congrArg String.toList h
  rw [show enYearTemplate y =
      ("\n                    SELECT \n                        \"batter\",\n                        SUM(\"runs_batter\") as total_runs,\n                        COUNT(*) as balls_faced,\n                        ROUND((SUM(\"runs_batter\")::numeric / NULLIF(COUNT(*), 0)) * 100, 2) as strike_rate,\n                        SUM(\"isFour\"::int) as fours,\n                        SUM(\"isSix\"::int) as sixes,\n                        COUNT(CASE WHEN \"isWicket\" = TRUE THEN 1 END) as times_out,\n                        ROUND(SUM(\"runs_batter\")::numeric / NULLIF(COUNT(CASE WHEN \"isWicket\" = TRUE THEN 1 END), 0), 2) as batting_average\n                    FROM ipl_balls \n                    WHERE \"year\" = " ++ y) ++
      " AND \"batter\" != '' AND \"batter\" IS NOT NULL\n                    GROUP BY \"batter\"\n                    HAVING SUM(\"runs_batter\") > 200\n                    ORDER BY total_runs DESC LIMIT 12\n                    " from rfl] at h2
  rw [toList_append, toList_append] at h2
  rw [show ("" : String).toList = [] from rfl] at h2
  rw [List.append_eq_nil, List.append_eq_nil] at h2
  exact absurd h2.1.1 (by decide)

/-- If the category-5 guard fired, the inner year search succeeds (the
guard and the search use the same list and predicate). -/
theorem enYears_find_isSome {L : String} (h : enCond5 L = true) :
    ∃ y, enYears.find? (fun x => containsSub L x) = some y := by
  unfold enCond5 enYears at h
  simp only [List.any_cons, List.any_nil, Bool.or_eq_true, Bool.or_eq_false_iff] at h
  unfold enYears
  cases h4 : containsSub L "2024" with
  | true => exact ⟨"2024", by simp [List.find?, h4]⟩
  | false =>
    cases h3 : containsSub L "2023" with
    | true => exact ⟨"2023", by simp [List.find?, h4, h3]⟩
    | false =>
      cases h2 : containsSub L "2022" with
      | true => exact ⟨"2022", by simp [List.find?, h4, h3, h2]⟩
      | false =>
        cases h1 : containsSub L "2021" with
        | true => exact ⟨"2021", by simp [List.find?, h4, h3, h2, h1]⟩
        | false => simp [h4, h3, h2, h1] at h

/-- The enhanced fallback always produces an answer string: the only
`none` return (the dead `if year:` fall-through) is unreachable. -/
theorem fallbackET_isSome (O : Oracle) (q : String) :
    ∃ s, (fallbackET O q).1 = some s := by
  unfold fallbackET
  by_cases h1 : enCond1 (pyLower q) = true
  · exact ⟨formatResultE (execQuery O enCat1) q, by simp [h1]⟩
  · rw [Bool.not_eq_true] at h1
    by_cases h2 : enCond2 (pyLower q) = true
    · exact ⟨formatResultE (execQuery O enCat2) q, by simp [h1, h2]⟩
    · rw [Bool.not_eq_true] at h2
      by_cases h3 : enCond3 (pyLower q) = true
      · exact ⟨formatResultE (execQuery O enCat3) q, by simp [h1, h2, h3]⟩
      · rw [Bool.not_eq_true] at h3
        by_cases h4 : enCond4 (pyLower q) = true
        · exact ⟨formatResultE (execQuery O enCat4) q, by simp [h1, h2, h3, h4]⟩
        · rw [Bool.not_eq_true] at h4
          by_cases h5 : enCond5 (pyLower q) = true
          · obtain ⟨y, hy⟩ := enYears_find_isSome h5
            exact ⟨formatResultE (execQuery O (enYearTemplate y)) q,
              by simp [h1, h2, h3, h4, h5, hy]⟩
          · rw [Bool.not_eq_true] at h5
            exact ⟨enSuggestions, by simp [h1, h2, h3, h4, h5]⟩

/-- Claim C1. The operation `ask` always returns an answer string, for every oracle
behaviour and every question (malformed or adversarial text included):
the enhanced `ask` never returns Python `None` — in particular the dead
`if year:` fall-through of its fallback is unreachable — and the baseline
`ask` is total by construction, every internal failure having been
converted to a message by the `except` arms embedded in
`getQueryFromLLM`, `execQuery`, the formatters and the fallbacks. -/
theorem claim_C1_ask_total :
    (∀ (O : Oracle) (q : String), ∃ s : String, askE O q = some s) ∧
    (∀ (O : Oracle) (q : String), ∃ s : String, askP O q = s) := by
  constructor
  · intro O q
    unfold askE askET
    cases hllm : getQueryFromLLM O q with
    | none => exact fallbackET_isSome O q
    | some qc =>
      simp only []
      by_cases hqc : qc = ""
      · rw [if_pos hqc]
        exact fallbackET_isSome O q
      · rw [if_neg hqc]
        cases hex : execQuery O qc with
        | none =>
          obtain ⟨s, hs⟩ := fallbackET_isSome O q
          exact ⟨s, hs⟩
        | some df =>
          show ∃ s, (if df.rows.length = 0 then
              ((fallbackET O q).1, qc :: (fallbackET O q).2)
            else (some (formatResultE (some df) q), [qc])).1 = some s
          by_cases hlen : df.rows.length = 0
          · rw [if_pos hlen]
            exact fallbackET_isSome O q
          · rw [if_neg hlen]
            exact ⟨_, rfl⟩
  · intro O q
    exact ⟨_, rfl⟩

/-- A concrete environment for C2: the LLM replies `"SELECT 1"` and every
query execution succeeds with an *empty* table. -/
def oracleC2 : Oracle :=
  ⟨fun _ => .ok "SELECT 1", fun _ => .ok ⟨["x"], []⟩⟩

set_option maxRecDepth 4000 in
/-- Claim C2, counterexample. In the enhanced chatbot an empty primary
result routes to the fallback resolver (line 476), so for the question
"xyzzy" — whose executed query returns an empty table but which matches
no fallback category — `ask` returns the help-suggestions message, not
the fixed "no data found" message. -/
theorem claim_C2_counterexample :
    askE oracleC2 "xyzzy" = some enSuggestions ∧
    askE oracleC2 "xyzzy" ≠ some "No data found matching your criteria." := by
  constructor
  · decide
  · decide

/-- Claim C2, amended. When synthesis succeeds with a nonempty cleaned
query and every execution returns an empty table: the *baseline* `ask`
returns exactly the fixed "no data found" message, for every question;
the *enhanced* `ask` instead returns whatever its fallback resolver
produces for the question. -/
theorem claim_C2_amended_empty_table :
    ∀ (O : Oracle) (q : String),
      (∀ p, ∃ r, O.llm p = .ok r ∧ cleanLLMReply r ≠ "") →
      (∀ sql, ∃ d : DataFrame, O.db sql = .ok d ∧ d.rows = []) →
      askP O q = "No data found matching your criteria." ∧
      askE O q = (fallbackET O q).1 := by
  intro O q hllm hdb
  obtain ⟨r, hr, hne⟩ := hllm q
  obtain ⟨d, hd, hrows⟩ := hdb (cleanLLMReply r)
  have hq : getQueryFromLLM O q = some (cleanLLMReply r) := by
    unfold getQueryFromLLM
    rw [hr]
  have hex : execQuery O (cleanLLMReply r) = some d := by
    unfold execQuery
    rw [hd]
  have hlen : d.rows.length = 0 := by rw [hrows]; rfl
  constructor
  · unfold askP askPT
    simp only [hq]
    rw [if_neg hne]
    simp only [hex]
    simp only [formatResultP]
    rw [if_pos hlen]
  · unfold askE askET
    simp only [hq]
    rw [if_neg hne]
    simp only [hex]
    rw [if_pos hlen]

/-- Witness for C2 (amended): `oracleC2` satisfies both premises. -/
theorem claim_C2_witness :
    askP oracleC2 "who is the goat" = "No data found matching your criteria." :=
  (claim_C2_amended_empty_table oracleC2 "who is the goat"
    (fun _ => ⟨"SELECT 1", rfl, by decide⟩)
    (fun _ => ⟨⟨["x"], []⟩, rfl, rfl⟩)).1

/-- A concrete environment for C3: the LLM replies `"SELECT 1"` but the
database is unreachable — every execution raises. -/
def oracleC3 : Oracle :=
  ⟨fun _ => .ok "SELECT 1", fun _ => .error "connection refused"⟩

set_option maxRecDepth 4000 in
/-- Claim C3, counterexample. With the database unreachable at execution
time, `ask("top run scorers")` does *not* return a leaderboard: the
fallback's own execution also fails, so the answer is the fixed apology
string (which contains no leaderboard header "🏏"). -/
theorem claim_C3_counterexample :
    askE oracleC3 "top run scorers" =
      some "Sorry, I couldn't process your query. Please try rephrasing your question." ∧
    containsSub "Sorry, I couldn't process your query. Please try rephrasing your question."
      "🏏" = false := by
  constructor
  · decide
  · decide

set_option maxRecDepth 8000 in
/-- Claim C3, amended. If every query execution returns the failure
signal, `ask("top run scorers")` routes to the fallback resolver, which
selects and executes the category-1 batting template (the enhanced
template carrying the minimum-500-run `HAVING` clause); that execution
failing too, `ask` returns the fixed apology string — a plain user-facing
message, not an error payload. -/
theorem claim_C3_amended_db_unreachable :
    ∀ O : Oracle, (∀ sql, ∃ e, O.db sql = .error e) →
      askE O "top run scorers" =
        some "Sorry, I couldn't process your query. Please try rephrasing your question." ∧
      askP O "top run scorers" =
        "Sorry, I couldn't process your query. Please try rephrasing your question." ∧
      enCat1 ∈ (askET O "top run scorers").2 ∧
      pgCat1 ∈ (askPT O "top run scorers").2 ∧
      containsSub enCat1 "HAVING SUM(\"runs_batter\") > 500" = true := by
  intro O hdb
  have hc1 : enCond1 (pyLower "top run scorers") = true := by decide
  have hp1 : pgCond1 (pyLower "top run scorers") = true := by decide
  obtain ⟨e1, he1⟩ := hdb enCat1
  obtain ⟨e2, he2⟩ := hdb pgCat1
  have hexE : execQuery O enCat1 = none := by unfold execQuery; rw [he1]
  have hexP : execQuery O pgCat1 = none := by unfold execQuery; rw [he2]
  have hfbE : fallbackET O "top run scorers" =
      (some "Sorry, I couldn't process your query. Please try rephrasing your question.",
        [enCat1]) := by
    simp only [fallbackET]
    rw [if_pos hc1, hexE]
    rfl
  have hfbP : fallbackPT O "top run scorers" =
      ("Sorry, I couldn't process your query. Please try rephrasing your question.",
        [pgCat1]) := by
    simp only [fallbackPT]
    rw [if_pos hp1, hexP]
    rfl
  have hE : (askET O "top run scorers").1 =
      some "Sorry, I couldn't process your query. Please try rephrasing your question." ∧
      enCat1 ∈ (askET O "top run scorers").2 := by
    unfold askET
    cases hllm : getQueryFromLLM O "top run scorers" with
    | none => rw [hfbE]; exact ⟨rfl, by simp⟩
    | some qc =>
      simp only []
      by_cases hqc : qc = ""
      · rw [if_pos hqc, hfbE]
        exact ⟨rfl, by simp⟩
      · rw [if_neg hqc]
        obtain ⟨e3, he3⟩ := hdb qc
        have hex3 : execQuery O qc = none := by unfold execQuery; rw [he3]
        simp only [hex3]
        rw [hfbE]
        exact ⟨rfl, by simp⟩
  have hP : (askPT O "top run scorers").1 =
      "Sorry, I couldn't process your query. Please try rephrasing your question." ∧
      pgCat1 ∈ (askPT O "top run scorers").2 := by
    unfold askPT
    cases hllm : getQueryFromLLM O "top run scorers" with
    | none => rw [hfbP]; exact ⟨rfl, by simp⟩
    | some qc =>
      simp only []
      by_cases hqc : qc = ""
      · rw [if_pos hqc, hfbP]
        exact ⟨rfl, by simp⟩
      · rw [if_neg hqc]
        obtain ⟨e3, he3⟩ := hdb qc
        have hex3 : execQuery O qc = none := by unfold execQuery; rw [he3]
        simp only [hex3]
        rw [hfbP]
        exact ⟨rfl, by simp⟩
  exact ⟨hE.1, hP.1, hE.2, hP.2, by decide⟩

/-- A fully failing environment (LLM and database both raise). -/
def oracleFail : Oracle :=
  ⟨fun _ => .error "rate limit", fun _ => .error "connection refused"⟩

/-- Witness for C3 (amended): the fully failing environment satisfies the
premise. -/
theorem claim_C3_witness :
    askE oracleFail "top run scorers" =
      some "Sorry, I couldn't process your query. Please try rephrasing your question." :=
  (claim_C3_amended_db_unreachable oracleFail
    (fun _ => ⟨"connection refused", rfl⟩)).1

set_option maxRecDepth 8000 in
/-- Claim C4. For every question whose lower-cased text contains one of
{top, best, highest} together with one of {run, scorer, batsman, batter}
and none of {death, 2021, 2022, 2023, 2024, pace, bowling}, the enhanced
fallback resolver fires its first branch: it executes exactly the
aggregate batting leaderboard template (and no other), the template that
restricts results to batters with more than 500 career runs via
`HAVING SUM("runs_batter") > 500`, and the answer is that execution's
formatted result. -/
theorem claim_C4_batting_leaderboard_first :
    ∀ (O : Oracle) (question : String),
      containsAny (pyLower question) ["top", "best", "highest"] = true →
      containsAny (pyLower question) ["run", "scorer", "batsman", "batter"] = true →
      containsAny (pyLower question)
        ["death", "2021", "2022", "2023", "2024", "pace", "bowling"] = false →
      (fallbackET O question).2 = [enCat1] ∧
      (fallbackET O question).1 = some (formatResultE (execQuery O enCat1) question) ∧
      containsSub enCat1 "HAVING SUM(\"runs_batter\") > 500" = true := by
  intro O question h1 h2 h3
  have h3' : containsAny (pyLower question)
      ["death", "2024", "2023", "2022", "pace", "bowling"] = false := by
    simp only [containsAny, List.any_cons, List.any_nil, Bool.or_eq_false_iff] at h3 ⊢
    tauto
  have hc1 : enCond1 (pyLower question) = true := by
    unfold enCond1
    rw [h1, h2, h3']
    rfl
  have hfb : fallbackET O question =
      (some (formatResultE (execQuery O enCat1) question), [enCat1]) := by
    simp only [fallbackET]
    rw [if_pos hc1]
  rw [hfb]
  exact ⟨rfl, rfl, by decide⟩

/-- Witness for C4: a concrete matching question (checked against a
failing environment; the selection does not depend on the oracle). -/
theorem claim_C4_witness :
    (fallbackET oracleFail "Best run scorers in IPL history").2 = [enCat1] :=
  (claim_C4_batting_leaderboard_first oracleFail "Best run scorers in IPL history"
    (by decide) (by decide) (by decide)).1

/-- Claim C6. Year extraction in the enhanced fallback matches only the
fixed set {2021, 2022, 2023, 2024}: a question containing "2025" that
matches no other category's keywords (and none of the four known years)
reaches the terminal branch — the resolver returns the help-suggestions
message and executes no query at all. -/
theorem claim_C6_year_2025_no_match :
    ∀ (O : Oracle) (question : String),
      containsSub (pyLower question) "2025" = true →
      enCond1 (pyLower question) = false →
      enCond2 (pyLower question) = false →
      enCond3 (pyLower question) = false →
      enCond4 (pyLower question) = false →
      containsAny (pyLower question) enYears = false →
      (fallbackET O question).1 = some enSuggestions ∧
      (fallbackET O question).2 = [] := by
  intro O question _ h1 h2 h3 h4 hyears
  have h5 : enCond5 (pyLower question) = false := hyears
  have hfb : fallbackET O question = (some enSuggestions, []) := by
    simp only [fallbackET]
    rw [if_neg (by simp [h1]), if_neg (by simp [h2]), if_neg (by simp [h3]),
      if_neg (by simp [h4]), if_neg (by simp [h5])]
  rw [hfb]
  exact ⟨rfl, rfl⟩

set_option maxRecDepth 4000 in
/-- Witness for C6: "stats for season 2025" contains "2025" and matches
no fallback category. -/
theorem claim_C6_witness :
    (fallbackET oracleFail "stats for season 2025").1 = some enSuggestions :=
  (claim_C6_year_2025_no_match oracleFail "stats for season 2025"
    (by decide) (by decide) (by decide) (by decide) (by decide) (by decide)).1

theorem fallbackET_trace_no_empty (O : Oracle) (q : String) :
    "" ∉ (fallbackET O q).2 := by
  unfold fallbackET
  by_cases h1 : enCond1 (pyLower q) = true
  · simp only [h1, if_true]
    simp only [List.mem_singleton]
    intro h
    exact absurd h.symm (by decide)
  · rw [Bool.not_eq_true] at h1
    simp only [h1, Bool.false_eq_true, if_false]
    by_cases h2 : enCond2 (pyLower q) = true
    · simp only [h2, if_true, List.mem_singleton]
      intro h
      exact absurd h.symm (by decide)
    · rw [Bool.not_eq_true] at h2
      simp only [h2, Bool.false_eq_true, if_false]
      by_cases h3 : enCond3 (pyLower q) = true
      · simp only [h3, if_true, List.mem_singleton]
        intro h
        exact absurd h.symm (by decide)
      · rw [Bool.not_eq_true] at h3
        simp only [h3, Bool.false_eq_true, if_false]
        by_cases h4 : enCond4 (pyLower q) = true
        · simp only [h4, if_true, List.mem_singleton]
          intro h
          exact absurd h.symm (by decide)
        · rw [Bool.not_eq_true] at h4
          simp only [h4, Bool.false_eq_true, if_false]
          by_cases h5 : enCond5 (pyLower q) = true
          · obtain ⟨y, hy⟩ := enYears_find_isSome h5
            simp only [h5, if_true, hy, List.mem_singleton]
            intro h
            exact enYearTemplate_ne_empty y h.symm
          · rw [Bool.not_eq_true] at h5
            simp only [h5, Bool.false_eq_true, if_false]
            simp

theorem fallbackPT_trace_no_empty (O : Oracle) (q : String) :
    "" ∉ (fallbackPT O q).2 := by
  unfold fallbackPT
  by_cases h1 : pgCond1 (pyLower q) = true
  · simp only [h1, if_true, List.mem_singleton]
    intro h
    exact absurd h.symm (by decide)
  · rw [Bool.not_eq_true] at h1
    simp only [h1, Bool.false_eq_true, if_false]
    by_cases h2 : pgCond2 (pyLower q) = true
    · simp only [h2, if_true, List.mem_singleton]
      intro h
      exact absurd h.symm (by decide)
    · rw [Bool.not_eq_true] at h2
      simp only [h2, Bool.false_eq_true, if_false]
      by_cases h3 : pgCond3 (pyLower q) = true
      · simp only [h3, if_true, List.mem_singleton]
        intro h
        exact absurd h.symm (by decide)
      · rw [Bool.not_eq_true] at h3
        simp only [h3, Bool.false_eq_true, if_false]
        by_cases h4 : pgCond4 (pyLower q) = true
        · simp only [h4, if_true, List.mem_singleton]
          intro h
          exact absurd h.symm (by decide)
        · rw [Bool.not_eq_true] at h4
          simp only [h4, Bool.false_eq_true, if_false]
          simp

/-- Claim C10. An LLM reply that cleans to the empty string is treated
identically to a synthesis failure: with the same database, `ask` answers
exactly as it would had the LLM call raised (both route to the fallback
resolver, since `if not query_code:` tests falsiness, catching `""` as
well as `None`); and — for every oracle and question — the empty SQL
statement is never among the queries passed to the executor. -/
theorem claim_C10_empty_query_fallback :
    (∀ (db : String → Except String DataFrame) (q r e : String),
      cleanLLMReply r = "" →
      askE ⟨fun _ => .ok r, db⟩ q = askE ⟨fun _ => .error e, db⟩ q ∧
      askP ⟨fun _ => .ok r, db⟩ q = askP ⟨fun _ => .error e, db⟩ q) ∧
    (∀ (O : Oracle) (q : String),
      "" ∉ (askET O q).2 ∧ "" ∉ (askPT O q).2) := by
  constructor
  · intro db q r e h
    have hfbE : fallbackET ⟨fun _ => .ok r, db⟩ q = fallbackET ⟨fun _ => .error e, db⟩ q := rfl
    have hfbP : fallbackPT ⟨fun _ => .ok r, db⟩ q = fallbackPT ⟨fun _ => .error e, db⟩ q := rfl
    constructor
    · unfold askE askET getQueryFromLLM
      simp only [h]
      rw [if_pos trivial]
      rw [hfbE]
    · unfold askP askPT getQueryFromLLM
      simp only [h]
      rw [if_pos trivial]
      rw [hfbP]
  · intro O q
    constructor
    · unfold askET
      cases hllm : getQueryFromLLM O q with
      | none => exact fallbackET_trace_no_empty O q
      | some qc =>
        simp only []
        by_cases hqc : qc = ""
        · rw [if_pos hqc]
          exact fallbackET_trace_no_empty O q
        · rw [if_neg hqc]
          cases hex : execQuery O qc with
          | none =>
            simp only [List.mem_cons, not_or]
            exact ⟨fun he => hqc he.symm, fallbackET_trace_no_empty O q⟩
          | some df =>
            show "" ∉ (if df.rows.length = 0 then
                ((fallbackET O q).1, qc :: (fallbackET O q).2)
              else (some (formatResultE (some df) q), [qc])).2
            by_cases hlen : df.rows.length = 0
            · rw [if_pos hlen]
              simp only [List.mem_cons, not_or]
              exact ⟨fun he => hqc he.symm, fallbackET_trace_no_empty O q⟩
            · rw [if_neg hlen]
              simp only [List.mem_singleton]
              exact fun he => hqc he.symm
    · unfold askPT
      cases hllm : getQueryFromLLM O q with
      | none => exact fallbackPT_trace_no_empty O q
      | some qc =>
        simp only []
        by_cases hqc : qc = ""
        · rw [if_pos hqc]
          exact fallbackPT_trace_no_empty O q
        · rw [if_neg hqc]
          cases hex : execQuery O qc with
          | none =>
            simp only [List.mem_cons, not_or]
            exact ⟨fun he => hqc he.symm, fallbackPT_trace_no_empty O q⟩
          | some df =>
            simp only [List.mem_singleton]
            exact fun he => hqc he.symm

/-- Witness for C10: the empty reply cleans to the empty string, and both
chatbots answer as on a synthesis failure. -/
theorem claim_C10_witness :
    askE ⟨fun _ => .ok "", fun _ => .error "down"⟩ "hello" =
      askE ⟨fun _ => .error "boom", fun _ => .error "down"⟩ "hello" :=
  (claim_C10_empty_query_fallback.1 (fun _ => .error "down") "hello" "" "boom"
    (by decide)).1
